import Mathlib

/-!
Verification development for the Visual Vocab application.

The development shallowly embeds the three source units the specification
covers:

* `src/services/gemini.ts` — the quiz generation orchestrator
  (`generateQuiz`, `cleanBase64`).  Network effects are modelled by a
  `ServiceEnv` record holding the outcome of the two service promises and
  by an explicit list of issued `ServiceRequest`s; JavaScript `throw` is
  modelled with `Except`.
* `src/components/DrawingCanvas.tsx` — the drawing surface, modelled as a
  step function on an explicit canvas state reacting to pointer events and
  emitting the `onImageReady` callback arguments.
* `src/App.tsx` — the download/card-compositing logic (`downloadImage`):
  greedy text wrapping, card height arithmetic over `ℚ`, and the two
  filename computations.

JavaScript strings are modelled by `String`, `null`/`undefined` by
`Option`, and JavaScript truthiness of strings by emptiness tests, exactly
where the source relies on it.
-/

/-- Character class of the JavaScript regular-expression escape backslash-s,
used by `String.prototype.trim` and by the whitespace-collapsing replace in
`App.tsx`. -/
def isJsSpace (c : Char) : Bool :=
  c = ' ' || c = '\t' || c = '\n' || c = '\x0b' || c = '\x0c' || c = '\r' ||
  c = '\u00A0' || c = '\u1680' || ('\u2000' ≤ c && c ≤ '\u200A') ||
  c = '\u2028' || c = '\u2029' || c = '\u202F' || c = '\u205F' ||
  c = '\u3000' || c = '\uFEFF'

/-- Model of `String.prototype.trim`: strip JavaScript whitespace from both
ends of the string. -/
def jsTrim (s : String) : String :=
  String.mk
    (((s.data.dropWhile (fun c => isJsSpace c)).reverse.dropWhile
        (fun c => isJsSpace c)).reverse)

/-- JavaScript truthiness of a nullable string: `null` and the empty string
are falsy, every other string is truthy (returned unchanged). -/
def getTruthy : Option String → Option String
  | none => none
  | some s => if s = "" then none else some s

/-- Matching engine behind `cleanBase64`: try to strip the character list
`h` from the front of `s`; `none` when `s` does not start with `h`. -/
def dropHeader : List Char → List Char → Option (List Char)
  | [], s => some s
  | _ :: _, [] => none
  | h :: hs, c :: cs => if h = c then dropHeader hs cs else none

/-- Data-URI header for PNG payloads, the first alternative of the regular
expression in `cleanBase64` and the header `canvas.toDataURL` emits. -/
def pngHeader : String := "data:image/png;base64,"

/-- Data-URI header for JPEG payloads, second alternative of the regular
expression in `cleanBase64`. -/
def jpegHeader : String := "data:image/jpeg;base64,"

/-- Data-URI header for JPG payloads, third alternative of the regular
expression in `cleanBase64`. -/
def jpgHeader : String := "data:image/jpg;base64,"

/-- Model of `cleanBase64` from `src/services/gemini.ts`: replace one
leading occurrence of `data:image/(png|jpeg|jpg);base64,` by the empty
string.  The anchored alternation tries `png`, then `jpeg`, then `jpg`;
at most one alternative can match at position zero. -/
def cleanBase64 (data : String) : String :=
  match dropHeader pngHeader.data data.data with
  | some rest => String.mk rest
  | none =>
    match dropHeader jpegHeader.data data.data with
    | some rest => String.mk rest
    | none =>
      match dropHeader jpgHeader.data data.data with
      | some rest => String.mk rest
      | none => data

/-- Quiz generation mode flag: `submit` uses the drawing verbatim,
`generate` requests an AI image. -/
inductive Mode
  | submit
  | generate
deriving DecidableEq

/-- Parsed JSON object shape the text branch of `generateQuiz` reads out of
the structured text response; a missing field models the JavaScript value
`undefined`. -/
structure TextFields where
  originalSentence : Option String
  blankedSentence : Option String
deriving DecidableEq

/-- Part of a generative-service response candidate; `inlineData` carries
the base64 payload of `part.inlineData.data` when present. -/
structure GenPart where
  inlineData : Option String
deriving DecidableEq

/-- Content record of a response candidate; `parts` is `none` when the
`parts` field is absent (`undefined`). -/
structure GenContent where
  parts : Option (List GenPart)
deriving DecidableEq

/-- Response candidate; `content` is `none` when the candidate carries no
`content` field, in which case reading `.parts` on it is a runtime type
error in JavaScript. -/
structure GenCandidate where
  content : Option GenContent
deriving DecidableEq

/-- Shape of a generative-service response as read by `generateQuiz`:
the optional `candidates` array, and `textData`, which models the object
`JSON.parse(response.text || ...)` produces — `none` stands for an absent
or empty `text` payload, whose parse is the empty JSON object with both
sentence fields `undefined`.  A malformed (unparsable) payload would throw
and is outside the shapes this model ranges over. -/
structure GenResponse where
  candidates : Option (List GenCandidate)
  textData : Option TextFields
deriving DecidableEq

/-- Evaluation of `JSON.parse(textResponse.text || ...)` on the modelled
response: an absent or empty text payload parses to the empty object. -/
def parsedText (r : GenResponse) : TextFields :=
  match r.textData with
  | some td => td
  | none => { originalSentence := none, blankedSentence := none }

/-- Runtime shape of the `QuizResult` record `generateQuiz` returns.  The
TypeScript interface declares `originalSentence` and `blankedSentence` as
`string`, but the JavaScript value assigned to them is whatever
`JSON.parse` produced, which may be `undefined`; the model therefore uses
`Option String` for those two fields. -/
structure QuizResult where
  imageUrl : String
  originalSentence : Option String
  blankedSentence : Option String
  targetWord : String
deriving DecidableEq

/-- Requests `generateQuiz` can issue to the generative service, carrying
the exact payload strings the source builds.  The two image constructors
correspond to calls of the image model, the two text constructors to calls
of the text model with the structured response schema. -/
inductive ServiceRequest
  | imageSketch (data : String) (prompt : String)
  | imageText (prompt : String)
  | textBlank (prompt : String)
  | textAuthor (prompt : String)
deriving DecidableEq

/-- Classification of a request as an image-generation service request. -/
def ServiceRequest.isImage : ServiceRequest → Bool
  | .imageSketch _ _ => true
  | .imageText _ => true
  | .textBlank _ => false
  | .textAuthor _ => false

/-- Prompt of the sketch-to-illustration request, including the optional
sentence-context clause selected by truthiness of `sentence`. -/
def sketchToImagePrompt (word sentence : String) : String :=
  let contextClause :=
    if sentence = "" then ""
    else " and the context of the sentence: \"" ++ sentence ++ "\""
  "Turn this rough sketch into a high-quality, colorful, realistic illustration that clearly represents the concept of \x27" ++
    word ++ "\x27" ++ contextClause ++
    ". Do not include any text inside the generated image."

/-- Prompt of the text-to-illustration request. -/
def textToImagePrompt (word sentence : String) : String :=
  "Create a high-quality, semi-realistic illustration for the following sentence: \"" ++
    sentence ++ "\". Focus visually on the concept of: " ++ word ++
    ". No text in image."

/-- Prompt asking the text model to blank out a supplied sentence. -/
def blankSentencePrompt (word sentence : String) : String :=
  "I have a sentence: \"" ++ sentence ++ "\". \n      I have a target word: \"" ++
    word ++
    "\".\n      Return a JSON object with the \"originalSentence\" (as provided) and a \"blankedSentence\" where the target word (and any morphological variations of it) is replaced with \"______\"."

/-- Prompt asking the text model to author and blank a new sentence. -/
def authorSentencePrompt (word : String) : String :=
  "Write a clear, educational English example sentence using the word \"" ++
    word ++
    "\". \n      Then, create a version of that sentence where the word \"" ++
    word ++
    "\" (and its variations like plurals/conjugations) is replaced by \"______\".\n      Return JSON."

/-- Image branch before the join: either the already-resolved verbatim
drawing (the record tagged `isOriginal` in the source) or a pending
service request. -/
inductive ImagePromise
  | original (data : String)
  | request (req : ServiceRequest)

/-- Requests issued on behalf of the image branch: none for the verbatim
drawing, the single pending request otherwise. -/
def imagePromiseReqs : ImagePromise → List ServiceRequest
  | .original _ => []
  | .request r => [r]

/-- Settled value of the image branch after the join: the verbatim drawing
or the service response. -/
inductive ImageSettled
  | original (data : String)
  | service (resp : GenResponse)

/-- Environment of one `generateQuiz` call: the outcome each of the two
service promises would settle with (`Except.error` is a rejection carrying
its message). -/
structure ServiceEnv where
  imgResp : Except String GenResponse
  txtResp : Except String GenResponse

/-- Errors `generateQuiz` can terminate with: the two input-validation
throws, the image-failure throw, a JavaScript runtime `TypeError` raised
while scanning the response, and rejection of one of the joined
promises. -/
inductive GQError
  | validationSubmit
  | validationGenerate
  | imageFailed
  | typeError
  | rejected (msg : String)
deriving DecidableEq

/-- Stage 1 of `generateQuiz`: choose the image branch.  Mirrors the
source: submit mode demands a truthy drawing and resolves with it
verbatim; generate mode prefers sketch-to-image over text-to-image and
validates that a sentence or drawing is present. -/
def imageStage (word sentence : String) (drawingBase64 : Option String)
    (mode : Mode) : Except GQError ImagePromise :=
  match mode with
  | .submit =>
    match getTruthy drawingBase64 with
    | none => .error .validationSubmit
    | some d => .ok (.original d)
  | .generate =>
    match getTruthy drawingBase64 with
    | some d =>
      .ok (.request (.imageSketch (cleanBase64 d) (sketchToImagePrompt word sentence)))
    | none =>
      if jsTrim sentence = "" then .error .validationGenerate
      else .ok (.request (.imageText (textToImagePrompt word sentence)))

/-- Stage 2 of `generateQuiz`: the text request, issued in both modes —
blank the supplied sentence when its trim is truthy, author a new one
otherwise. -/
def textStage (word sentence : String) : ServiceRequest :=
  if jsTrim sentence = "" then .textAuthor (authorSentencePrompt word)
  else .textBlank (blankSentencePrompt word sentence)

/-- Settling of the image branch at the `Promise.all` join: the verbatim
drawing is already resolved; a pending request takes the outcome the
environment assigns to the image promise. -/
def settleImage : ImagePromise → ServiceEnv → Except String ImageSettled
  | .original d, _ => .ok (.original d)
  | .request _, env => env.imgResp.map .service

/-- Scan of the parts array in the merge step: the first part carrying
inline data yields the data URI, parts without inline data are skipped,
and an exhausted array leaves the image URL empty. -/
def firstInlineUrl : List GenPart → String
  | [] => ""
  | p :: rest =>
    match p.inlineData with
    | some d => "data:image/png;base64," ++ d
    | none => firstInlineUrl rest

/-- Image extraction of the merge step, with JavaScript evaluation order:
an absent `candidates` field is falsy and leaves the URL empty, but a
present (even empty) array is truthy, so the source then reads
`candidates[0].content.parts` — a `TypeError` when the array is empty or
the first candidate has no `content`. -/
def extractImageUrl : ImageSettled → Except GQError String
  | .original d => .ok d
  | .service r =>
    match r.candidates with
    | none => .ok ""
    | some [] => .error .typeError
    | some (c :: _) =>
      match c.content with
      | none => .error .typeError
      | some ct =>
        match ct.parts with
        | none => .ok ""
        | some ps => .ok (firstInlineUrl ps)

/-- Join and merge of `generateQuiz`: await both promises (either
rejection rejects the whole call), extract the final image URL, fail on an
empty URL, and otherwise assemble the `QuizResult` from the parsed text
payload. -/
def settleAndMerge (word : String) (ip : ImagePromise) (env : ServiceEnv) :
    Except GQError QuizResult :=
  match settleImage ip env, env.txtResp with
  | .error m, _ => .error (.rejected m)
  | .ok _, .error m => .error (.rejected m)
  | .ok settled, .ok tResp =>
    match extractImageUrl settled with
    | .error e => .error e
    | .ok finalImageUrl =>
      if finalImageUrl = "" then .error .imageFailed
      else
        let textData := parsedText tResp
        .ok
          { imageUrl := finalImageUrl
            originalSentence := textData.originalSentence
            blankedSentence := textData.blankedSentence
            targetWord := word }

/-- Model of `generateQuiz` from `src/services/gemini.ts`.  The returned
pair holds the service requests issued during the call (in issue order:
image request, when any, then the text request) and the outcome: the
`QuizResult` or the error thrown/rejected with. -/
def generateQuiz (word sentence : String) (drawingBase64 : Option String)
    (mode : Mode) (env : ServiceEnv) :
    List ServiceRequest × Except GQError QuizResult :=
  match imageStage word sentence drawingBase64 mode with
  | .error e => ([], .error e)
  | .ok ip =>
    (imagePromiseReqs ip ++ [textStage word sentence],
     settleAndMerge word ip env)

/-- State of the drawing surface in `src/components/DrawingCanvas.tsx`:
the two React flags plus the committed stroke points of the raster (the
white background repaint on clear empties it). -/
structure CanvasState where
  isDrawing : Bool
  hasDrawn : Bool
  raster : List (Int × Int)
deriving DecidableEq

/-- Pointer and button events the component handles: `press` covers
mouse-down and touch-start (at raster-local coordinates), `move` the move
events, `release` covers mouse-up, mouse-leave and touch-end, and `clear`
the clear button. -/
inductive CanvasEvent
  | press (x y : Int)
  | move (x y : Int)
  | release
  | clear

/-- Textual encoding of the raster used by the modelled
`canvas.toDataURL` serialization. -/
def encodeRaster : List (Int × Int) → String
  | [] => ""
  | p :: rest => toString p.1 ++ "," ++ toString p.2 ++ ";" ++ encodeRaster rest

/-- Model of `canvas.toDataURL` applied to the current raster: a PNG data
URI whose payload encodes the committed strokes. -/
def canvasToDataUrl (s : CanvasState) : String :=
  "data:image/png;base64," ++ encodeRaster s.raster

/-- One event-handler step of the drawing surface.  Returns the successor
state and the arguments of the `onImageReady` calls the handler makes (in
order).  `press` starts a path and sets both flags; `move` extends the
path only while drawing; `release` ends the stroke and, via
`exportCanvas`, emits the serialized raster only when something has been
drawn; `clear` repaints the background, resets the drawn flag and emits
`none`. -/
def stepCanvas (s : CanvasState) : CanvasEvent → CanvasState × List (Option String)
  | .press x y =>
    ({ s with isDrawing := true, hasDrawn := true, raster := s.raster ++ [(x, y)] }, [])
  | .move x y =>
    if s.isDrawing then ({ s with raster := s.raster ++ [(x, y)] }, [])
    else (s, [])
  | .release =>
    if s.isDrawing then
      ({ s with isDrawing := false },
       if s.hasDrawn then [some (canvasToDataUrl { s with isDrawing := false })]
       else [])
    else (s, [])
  | .clear =>
    ({ s with hasDrawn := false, raster := [] }, [none])

/-- Run of the drawing surface over a sequence of events, concatenating
the `onImageReady` call arguments. -/
def runCanvas : CanvasState → List CanvasEvent → CanvasState × List (Option String)
  | s, [] => (s, [])
  | s, e :: rest =>
    let (s1, out1) := stepCanvas s e
    let (s2, out2) := runCanvas s1 rest
    (s2, out1 ++ out2)

/-- Freshly mounted drawing surface: not drawing, nothing drawn, white
raster. -/
def initCanvas : CanvasState :=
  { isDrawing := false, hasDrawn := false, raster := [] }

/-- Model of the JavaScript single-space `split` used on the blanked
sentence in `downloadImage` (accumulator holds the current word
reversed). -/
def splitWordsAux : List Char → List Char → List String
  | [], acc => [String.mk acc.reverse]
  | c :: rest, acc =>
    if c = ' ' then String.mk acc.reverse :: splitWordsAux rest []
    else splitWordsAux rest (c :: acc)

/-- JavaScript `s.split(' ')`: split at every single space character; an
empty string yields one empty word. -/
def jsSplitSpace (s : String) : List String := splitWordsAux s.data []

/-- Fixed card width of the composited download card. -/
def cardWidth : ℚ := 1200

/-- Fixed padding of the text block of the card. -/
def cardPadding : ℚ := 60

/-- Fixed line height of the wrapped text of the card. -/
def cardLineHeight : ℚ := 70

/-- Maximum text width the greedy wrap measures against. -/
def textMaxWidth : ℚ := cardWidth - cardPadding * 2

/-- Greedy wrap loop of `downloadImage`: `line` is the line under
construction, `n` the index of the next word; a measured overflow pushes
the current line except at the first word, and the trailing line is always
pushed. -/
def wrapAux (measure : String → ℚ) : List String → String → Nat → List String
  | [], line, _ => [line]
  | w :: rest, line, n =>
    let testLine := line ++ w ++ " "
    if textMaxWidth < measure testLine ∧ 0 < n then
      line :: wrapAux measure rest (w ++ " ") (n + 1)
    else
      wrapAux measure rest testLine (n + 1)

/-- Wrapped lines of the blanked sentence, parameterized by the text
measurement the canvas context supplies. -/
def wrapText (measure : String → ℚ) (blanked : String) : List String :=
  wrapAux measure (jsSplitSpace blanked) "" 0

/-- Scaled height of the result image on the card: the fixed card width
times the source aspect ratio, with ratio one when the source height is
not positive. -/
def scaledImgHeight (imgW imgH : ℚ) : ℚ :=
  let aspectRatio := if 0 < imgH then imgH / imgW else 1
  cardWidth * aspectRatio

/-- Total height of the composited card: scaled image height plus the
text section, which is line count times line height plus twice the
padding. -/
def cardTotalHeight (measure : String → ℚ) (imgW imgH : ℚ) (blanked : String) : ℚ :=
  let imgHeight := scaledImgHeight imgW imgH
  let lines := wrapText measure blanked
  let textSectionHeight := (lines.length : ℚ) * cardLineHeight + cardPadding * 2
  imgHeight + textSectionHeight

/-- Collapse of the JavaScript global replace of whitespace runs by an
underscore: the flag records whether the previous character was
whitespace, so each maximal run contributes one underscore. -/
def collapseWsAux : Bool → List Char → List Char
  | _, [] => []
  | prevWs, c :: rest =>
    if isJsSpace c then
      (if prevWs then [] else ['_']) ++ collapseWsAux true rest
    else
      c :: collapseWsAux false rest

/-- Model of `targetWord.replace` with the global whitespace-run pattern
and an underscore replacement, as used in the composited download path. -/
def jsReplaceWsRuns (s : String) : String :=
  String.mk (collapseWsAux false s.data)

/-- Filename of the composited-card download path of `downloadImage`. -/
def downloadName (targetWord : String) : String :=
  "visual-vocab-" ++ jsReplaceWsRuns targetWord ++ ".png"

/-- Filename of the decode-failure fallback download path of
`downloadImage`, which embeds the target word without any replacement. -/
def fallbackName (targetWord : String) : String :=
  "visual-vocab-" ++ targetWord ++ ".png"

theorem string_data_append (a b : String) : (a ++ b).data = a.data ++ b.data := by
  cases a; cases b; rfl

theorem string_mk_data (s : String) : String.mk s.data = s := by
  cases s; rfl

theorem cleanBase64_strips_png (p : String) :
    cleanBase64 (pngHeader ++ p) = p := by
  cases p; rfl

theorem cleanBase64_strips_jpeg (p : String) :
    cleanBase64 (jpegHeader ++ p) = p := by
  cases p; rfl

theorem cleanBase64_strips_jpg (p : String) :
    cleanBase64 (jpgHeader ++ p) = p := by
  cases p; rfl

/-- C6: stripping the optional data-URI header is a retraction of header
prefixing — for each of the three admissible headers, `cleanBase64`
applied to header-plus-payload returns exactly the payload; the drawing
surface export (a PNG data URI over the serialized raster) round-trips to
its raw payload; and a string carrying none of the three headers is
returned unchanged. -/
theorem cleanBase64_header_roundtrip (p s : String) :
    cleanBase64 (pngHeader ++ p) = p ∧
    cleanBase64 (jpegHeader ++ p) = p ∧
    cleanBase64 (jpgHeader ++ p) = p ∧
    (∀ st : CanvasState, cleanBase64 (canvasToDataUrl st) = encodeRaster st.raster) ∧
    (dropHeader pngHeader.data s.data = none →
     dropHeader jpegHeader.data s.data = none →
     dropHeader jpgHeader.data s.data = none →
     cleanBase64 s = s) := by
  refine ⟨cleanBase64_strips_png p, cleanBase64_strips_jpeg p, cleanBase64_strips_jpg p,
    ?_, ?_⟩
  · intro st
    exact cleanBase64_strips_png (encodeRaster st.raster)
  · intro h1 h2 h3
    simp only [cleanBase64, h1, h2, h3]

theorem cleanBase64_header_roundtrip_witness :
    cleanBase64 (pngHeader ++ "QUJD") = "QUJD" ∧ cleanBase64 "QUJD" = "QUJD" :=
  ⟨(cleanBase64_header_roundtrip "QUJD" "QUJD").1,
   (cleanBase64_header_roundtrip "QUJD" "QUJD").2.2.2.2 (by decide) (by decide) (by decide)⟩

/-- C7 counterexample: for the target word with a space, the
decode-failure fallback path of `downloadImage` names the file with the
raw word, not with the whitespace runs replaced by underscores, so the
two download paths disagree on the claimed filename. -/
theorem downloadName_fallback_cex :
    downloadName "a b" = "visual-vocab-a_b.png" ∧
    fallbackName "a b" = "visual-vocab-a b.png" ∧
    fallbackName "a b" ≠ "visual-vocab-a_b.png" := by
  refine ⟨by decide, by decide, by decide⟩

theorem collapseWsAux_no_space (l : List Char) :
    ∀ (b : Bool) (c : Char), c ∈ collapseWsAux b l → isJsSpace c = false := by
  induction l with
  | nil => intro b c h; simp [collapseWsAux] at h
  | cons d ds ih =>
    intro b c h
    by_cases hd : isJsSpace d
    · simp only [collapseWsAux, hd, if_true] at h
      rcases List.mem_append.mp h with h' | h'
      · cases b with
        | true => simp at h'
        | false =>
          have hc : c = '_' := by simpa using h'
          subst hc; decide
      · exact ih true c h'
    · simp only [collapseWsAux, hd, if_false, Bool.false_eq_true, List.mem_cons] at h
      rcases h with h' | h'
      · subst h'
        simpa using hd
      · exact ih false c h'

/-- C7 amended: the composited-card path names the file
`visual-vocab-<word with whitespace runs replaced by underscores>.png`, and
its filename therefore contains no whitespace character at all, while the
fallback path embeds the target word verbatim (whitespace included)
between the same fixed prefix and suffix. -/
theorem downloadName_amended (w : String) (c : Char)
    (hc : c ∈ (downloadName w).data) :
    isJsSpace c = false ∧
    (fallbackName w).data = "visual-vocab-".data ++ w.data ++ ".png".data := by
  constructor
  · have hsplit : (downloadName w).data =
        "visual-vocab-".data ++ (collapseWsAux false w.data ++ ".png".data) := by
      simp only [downloadName, jsReplaceWsRuns, string_data_append]
      simp [List.append_assoc]
    rw [hsplit] at hc
    have hfix : ∀ x ∈ "visual-vocab-".data, isJsSpace x = false := by decide
    have hsuf : ∀ x ∈ ".png".data, isJsSpace x = false := by decide
    rcases List.mem_append.mp hc with h' | h'
    · exact hfix c h'
    · rcases List.mem_append.mp h' with h'' | h''
      · exact collapseWsAux_no_space w.data false c h''
      · exact hsuf c h''
  · simp only [fallbackName, string_data_append]

theorem downloadName_amended_witness :
    'v' ∈ (downloadName "a b").data ∧
    (isJsSpace 'v' = false ∧
     (fallbackName "a b").data = "visual-vocab-".data ++ "a b".data ++ ".png".data) :=
  ⟨by decide, downloadName_amended "a b" 'v' (by decide)⟩

/-- C8: callback contract of the drawing surface — clearing on a fresh
surface leaves the drawn flag false and emits only the null callback;
press, move, release emits exactly one non-null encoded image; a release
with no prior press, or a second consecutive release, emits nothing
further; clearing after a drawn stroke resets the flag and emits null. -/
theorem drawingCanvas_callback_contract :
    (runCanvas initCanvas [CanvasEvent.clear] =
      ({ isDrawing := false, hasDrawn := false, raster := [] }, [none])) ∧
    (∀ x y u v : Int,
      (runCanvas initCanvas
        [CanvasEvent.press x y, CanvasEvent.move u v, CanvasEvent.release]).2 =
        [some ("data:image/png;base64," ++ encodeRaster [(x, y), (u, v)])]) ∧
    ((runCanvas initCanvas [CanvasEvent.release]).2 = []) ∧
    (∀ x y : Int,
      (runCanvas initCanvas
        [CanvasEvent.press x y, CanvasEvent.release, CanvasEvent.release]).2 =
        [some ("data:image/png;base64," ++ encodeRaster [(x, y)])]) ∧
    (∀ x y : Int,
      (runCanvas initCanvas
        [CanvasEvent.press x y, CanvasEvent.release, CanvasEvent.clear]).2 =
        [some ("data:image/png;base64," ++ encodeRaster [(x, y)]), none] ∧
      (runCanvas initCanvas
        [CanvasEvent.press x y, CanvasEvent.release, CanvasEvent.clear]).1.hasDrawn
        = false) :=
  ⟨rfl, fun _ _ _ _ => rfl, rfl, fun _ _ => rfl, fun _ _ => ⟨rfl, rfl⟩⟩

theorem getTruthy_eq_none (o : Option String) :
    getTruthy o = none ↔ (o = none ∨ o = some "") := by
  cases o with
  | none => simp [getTruthy]
  | some s => by_cases hs : s = "" <;> simp [getTruthy, hs]

theorem textStage_not_image (word sentence : String) :
    (textStage word sentence).isImage = false := by
  unfold textStage
  by_cases hs : jsTrim sentence = "" <;> simp [hs, ServiceRequest.isImage]

theorem extractImageUrl_error_eq (st : ImageSettled) (e : GQError)
    (h : extractImageUrl st = .error e) : e = .typeError := by
  cases st with
  | original d => simp [extractImageUrl] at h
  | service r =>
    rcases hc : r.candidates with _ | cs
    · simp [extractImageUrl, hc] at h
    · cases cs with
      | nil =>
        simp [extractImageUrl, hc] at h
        exact h.symm
      | cons c rest =>
        rcases hct : c.content with _ | ct
        · simp [extractImageUrl, hc, hct] at h
          exact h.symm
        · rcases hp : ct.parts with _ | ps <;>
            simp [extractImageUrl, hc, hct, hp] at h

theorem settleAndMerge_no_validation (word : String) (ip : ImagePromise)
    (env : ServiceEnv) :
    settleAndMerge word ip env ≠ .error .validationSubmit ∧
    settleAndMerge word ip env ≠ .error .validationGenerate := by
  unfold settleAndMerge
  rcases hsi : settleImage ip env with m | st
  · simp
  · rcases htx : env.txtResp with m | tResp
    · simp
    · rcases hex : extractImageUrl st with e | url
      · have he := extractImageUrl_error_eq st e hex
        subst he
        simp [hex]
      · simp only [hex]
        by_cases hu : url = "" <;> simp [hu]

/-- C1: for every non-empty word and non-null drawing, submit mode issues
no image-generation service request, and whenever the call returns a
`QuizResult` its `imageUrl` is exactly the supplied drawing string and its
`targetWord` is the supplied word. -/
theorem submit_mode_verbatim (word sentence d : String) (env : ServiceEnv)
    (_hw : word ≠ "") :
    (∀ r ∈ (generateQuiz word sentence (some d) Mode.submit env).1,
      r.isImage = false) ∧
    (∀ q, (generateQuiz word sentence (some d) Mode.submit env).2 = .ok q →
      q.imageUrl = d ∧ q.targetWord = word) := by
  by_cases hd : d = ""
  · subst hd
    simp [generateQuiz, imageStage, getTruthy]
  · have himg : imageStage word sentence (some d) Mode.submit =
        .ok (.original d) := by
      simp [imageStage, getTruthy, hd]
    constructor
    · intro r hr
      simp only [generateQuiz, himg, imagePromiseReqs, List.nil_append,
        List.mem_singleton] at hr
      subst hr
      exact textStage_not_image word sentence
    · intro q hq
      simp only [generateQuiz, himg] at hq
      unfold settleAndMerge settleImage at hq
      rcases htx : env.txtResp with m | tResp
      · rw [htx] at hq
        simp at hq
      · rw [htx] at hq
        simp only [extractImageUrl] at hq
        rw [if_neg hd] at hq
        simp only [Except.ok.injEq] at hq
        subst hq
        exact ⟨rfl, rfl⟩

theorem submit_mode_verbatim_witness :
    (∀ r ∈ (generateQuiz "improve" "" (some "DRAW") Mode.submit
        ⟨.ok ⟨none, none⟩, .ok ⟨none, some ⟨some "o", some "b"⟩⟩⟩).1,
      r.isImage = false) ∧
    (∀ q, (generateQuiz "improve" "" (some "DRAW") Mode.submit
        ⟨.ok ⟨none, none⟩, .ok ⟨none, some ⟨some "o", some "b"⟩⟩⟩).2 = .ok q →
      q.imageUrl = "DRAW" ∧ q.targetWord = "improve") :=
  submit_mode_verbatim "improve" "" "DRAW" _ (by decide)

/-- C2: with a non-empty word, `generateQuiz` throws a validation error
exactly when submit mode lacks a truthy drawing, or generate mode lacks
both a truthy drawing and a non-whitespace sentence; a validation error is
thrown before any service request is issued, and in every other case the
service calls proceed (the request list is non-empty and no validation
error is produced — the error characterization is the stated
equivalence). -/
theorem generateQuiz_validation_iff (word sentence : String)
    (drawing : Option String) (mode : Mode) (env : ServiceEnv)
    (_hw : word ≠ "") :
    (((generateQuiz word sentence drawing mode env).2 =
        .error .validationSubmit ∨
      (generateQuiz word sentence drawing mode env).2 =
        .error .validationGenerate) ↔
     ((mode = Mode.submit ∧ (drawing = none ∨ drawing = some "")) ∨
      (mode = Mode.generate ∧ (drawing = none ∨ drawing = some "") ∧
        jsTrim sentence = ""))) ∧
    (((generateQuiz word sentence drawing mode env).2 =
        .error .validationSubmit ∨
      (generateQuiz word sentence drawing mode env).2 =
        .error .validationGenerate) →
      (generateQuiz word sentence drawing mode env).1 = []) ∧
    (¬ ((mode = Mode.submit ∧ (drawing = none ∨ drawing = some "")) ∨
        (mode = Mode.generate ∧ (drawing = none ∨ drawing = some "") ∧
          jsTrim sentence = "")) →
      (generateQuiz word sentence drawing mode env).1 ≠ []) := by
  cases mode with
  | submit =>
    rcases hgt : getTruthy drawing with _ | d
    · have hcond : drawing = none ∨ drawing = some "" :=
        (getTruthy_eq_none drawing).mp hgt
      simp [generateQuiz, imageStage, hgt, hcond]
    · have hcond : ¬ (drawing = none ∨ drawing = some "") := by
        intro hc
        rw [(getTruthy_eq_none drawing).mpr hc] at hgt
        exact Option.noConfusion hgt
      have hnv := settleAndMerge_no_validation word (.original d) env
      simp [generateQuiz, imageStage, hgt, hcond, hnv.1, hnv.2]
  | generate =>
    rcases hgt : getTruthy drawing with _ | d
    · have hcond : drawing = none ∨ drawing = some "" :=
        (getTruthy_eq_none drawing).mp hgt
      by_cases hs : jsTrim sentence = ""
      · simp [generateQuiz, imageStage, hgt, hs, hcond]
      · have hnv := settleAndMerge_no_validation word
          (.request (.imageText (textToImagePrompt word sentence))) env
        simp [generateQuiz, imageStage, hgt, hs, hcond, hnv.1, hnv.2]
    · have hcond : ¬ (drawing = none ∨ drawing = some "") := by
        intro hc
        rw [(getTruthy_eq_none drawing).mpr hc] at hgt
        exact Option.noConfusion hgt
      have hnv := settleAndMerge_no_validation word
        (.request (.imageSketch (cleanBase64 d) (sketchToImagePrompt word sentence))) env
      simp [generateQuiz, imageStage, hgt, hcond, hnv.1, hnv.2]

theorem generateQuiz_validation_iff_witness :
    ((generateQuiz "launch" "" none Mode.generate
        ⟨.ok ⟨none, none⟩, .ok ⟨none, none⟩⟩).2 =
        .error .validationSubmit ∨
     (generateQuiz "launch" "" none Mode.generate
        ⟨.ok ⟨none, none⟩, .ok ⟨none, none⟩⟩).2 =
        .error .validationGenerate) ∧
    (generateQuiz "launch" "" none Mode.generate
        ⟨.ok ⟨none, none⟩, .ok ⟨none, none⟩⟩).1 = [] := by
  have h := generateQuiz_validation_iff "launch" "" none Mode.generate
    ⟨.ok ⟨none, none⟩, .ok ⟨none, none⟩⟩ (by decide)
  have hcond : (Mode.generate = Mode.submit ∧
      ((none : Option String) = none ∨ (none : Option String) = some "")) ∨
      (Mode.generate = Mode.generate ∧
        ((none : Option String) = none ∨ (none : Option String) = some "") ∧
        jsTrim "" = "") :=
    Or.inr ⟨rfl, Or.inl rfl, rfl⟩
  have hv := h.1.mpr hcond
  exact ⟨hv, h.2.1 hv⟩

/-- C3 counterexample: with a text-service response whose text payload is
absent, `generateQuiz` resolves successfully in submit mode, yet the
returned `QuizResult` carries no `originalSentence` and no
`blankedSentence` at all (the JavaScript fields are `undefined`), so the
produced record violates the claimed non-empty-string invariant. -/
theorem quizResult_nonempty_cex :
    (generateQuiz "w" "" (some "d") Mode.submit
      ⟨.ok ⟨none, none⟩, .ok ⟨none, none⟩⟩).2 =
      .ok { imageUrl := "d", originalSentence := none,
            blankedSentence := none, targetWord := "w" } := rfl

/-- C3 amended: whenever `generateQuiz` resolves with a `QuizResult`, its
`originalSentence` and `blankedSentence` are exactly the corresponding
fields of the parsed text-service payload (so they are non-empty strings
precisely when the service supplied non-empty strings, the shape the
request schema demands, and are missing when the payload lacks them); the
`imageUrl` is never empty and `targetWord` is the supplied word. -/
theorem quizResult_fields_from_service (word sentence : String)
    (drawing : Option String) (mode : Mode) (env : ServiceEnv)
    (tr : GenResponse) (q : QuizResult)
    (htx : env.txtResp = .ok tr)
    (hq : (generateQuiz word sentence drawing mode env).2 = .ok q) :
    q.originalSentence = (parsedText tr).originalSentence ∧
    q.blankedSentence = (parsedText tr).blankedSentence ∧
    q.targetWord = word ∧ q.imageUrl ≠ "" := by
  rcases hstage : imageStage word sentence drawing mode with e | ip
  · unfold generateQuiz at hq
    rw [hstage] at hq
    simp at hq
  · unfold generateQuiz at hq
    rw [hstage] at hq
    simp only at hq
    unfold settleAndMerge at hq
    rcases hsi : settleImage ip env with m | st
    · rw [hsi] at hq
      simp at hq
    · rw [hsi, htx] at hq
      dsimp only at hq
      rcases hex : extractImageUrl st with e | url
      · rw [hex] at hq
        simp at hq
      · rw [hex] at hq
        dsimp only at hq
        by_cases hu : url = ""
        · rw [if_pos hu] at hq
          simp at hq
        · rw [if_neg hu] at hq
          simp only [Except.ok.injEq] at hq
          subst hq
          exact ⟨rfl, rfl, rfl, hu⟩

theorem quizResult_fields_from_service_witness :
    ({ imageUrl := "d", originalSentence := some "o", blankedSentence := some "b",
       targetWord := "w" } : QuizResult).originalSentence =
      (parsedText ⟨none, some ⟨some "o", some "b"⟩⟩).originalSentence ∧
    ({ imageUrl := "d", originalSentence := some "o", blankedSentence := some "b",
       targetWord := "w" } : QuizResult).blankedSentence =
      (parsedText ⟨none, some ⟨some "o", some "b"⟩⟩).blankedSentence ∧
    ({ imageUrl := "d", originalSentence := some "o", blankedSentence := some "b",
       targetWord := "w" } : QuizResult).targetWord = "w" ∧
    ({ imageUrl := "d", originalSentence := some "o", blankedSentence := some "b",
       targetWord := "w" } : QuizResult).imageUrl ≠ "" :=
  quizResult_fields_from_service "w" "" (some "d") Mode.submit
    ⟨.ok ⟨none, none⟩, .ok ⟨none, some ⟨some "o", some "b"⟩⟩⟩
    ⟨none, some ⟨some "o", some "b"⟩⟩
    { imageUrl := "d", originalSentence := some "o", blankedSentence := some "b",
      targetWord := "w" } rfl rfl

/-- C4: `generateQuiz` is all-or-nothing — a successful `QuizResult` is
produced only when the text promise resolved, and, whenever an
image-generation request was issued, only when the image promise resolved
as well; rejection of either joined promise therefore precludes any
(partial) result. -/
theorem generateQuiz_all_or_nothing (word sentence : String)
    (drawing : Option String) (mode : Mode) (env : ServiceEnv) (q : QuizResult)
    (hq : (generateQuiz word sentence drawing mode env).2 = .ok q) :
    (∃ tr, env.txtResp = .ok tr) ∧
    ((∃ r ∈ (generateQuiz word sentence drawing mode env).1, r.isImage = true) →
      ∃ ir, env.imgResp = .ok ir) := by
  rcases hstage : imageStage word sentence drawing mode with e | ip
  · unfold generateQuiz at hq
    rw [hstage] at hq
    simp at hq
  · unfold generateQuiz at hq
    rw [hstage] at hq
    simp only at hq
    have htx : ∃ tr, env.txtResp = .ok tr := by
      unfold settleAndMerge at hq
      rcases hsi : settleImage ip env with m | st
      · rw [hsi] at hq
        simp at hq
      · rcases htx' : env.txtResp with m | t
        · rw [hsi, htx'] at hq
          exact Except.noConfusion hq
        · exact ⟨t, rfl⟩
    refine ⟨htx, ?_⟩
    rintro ⟨r, hr, hri⟩
    cases ip with
    | original dd =>
      unfold generateQuiz at hr
      rw [hstage] at hr
      simp only [imagePromiseReqs, List.nil_append, List.mem_singleton] at hr
      subst hr
      rw [textStage_not_image word sentence] at hri
      exact Bool.noConfusion hri
    | request req =>
      unfold settleAndMerge settleImage at hq
      dsimp only at hq
      rcases hir : env.imgResp with m | ir
      · rw [hir] at hq
        exact Except.noConfusion hq
      · exact ⟨ir, rfl⟩

theorem generateQuiz_all_or_nothing_witness :
    (∃ tr, (⟨.ok ⟨none, none⟩, .ok ⟨none, some ⟨some "o", some "b"⟩⟩⟩ :
        ServiceEnv).txtResp = .ok tr) ∧
    ((∃ r ∈ (generateQuiz "w" "" (some "d") Mode.submit
        ⟨.ok ⟨none, none⟩, .ok ⟨none, some ⟨some "o", some "b"⟩⟩⟩).1,
        r.isImage = true) →
      ∃ ir, (⟨.ok ⟨none, none⟩, .ok ⟨none, some ⟨some "o", some "b"⟩⟩⟩ :
        ServiceEnv).imgResp = .ok ir) :=
  generateQuiz_all_or_nothing "w" "" (some "d") Mode.submit
    ⟨.ok ⟨none, none⟩, .ok ⟨none, some ⟨some "o", some "b"⟩⟩⟩
    { imageUrl := "d", originalSentence := some "o", blankedSentence := some "b",
      targetWord := "w" } rfl

theorem dataUri_ne_empty (s : String) : "data:image/png;base64," ++ s ≠ "" := by
  intro h
  have h2 := congrArg (fun t => t.data.length) h
  simp only [string_data_append, List.length_append] at h2
  have e1 : ("data:image/png;base64," : String).data.length = 22 := by decide
  have e2 : ("" : String).data.length = 0 := by decide
  rw [e1, e2] at h2
  omega

theorem firstInlineUrl_first (ps₁ : List GenPart) (p : GenPart)
    (ps₂ : List GenPart) (dta : String)
    (h₁ : ∀ x ∈ ps₁, x.inlineData = none) (hp : p.inlineData = some dta) :
    firstInlineUrl (ps₁ ++ p :: ps₂) = "data:image/png;base64," ++ dta := by
  induction ps₁ with
  | nil => simp [firstInlineUrl, hp]
  | cons a as ih =>
    have ha : a.inlineData = none := h₁ a (by simp)
    rw [List.cons_append]
    simp only [firstInlineUrl, ha]
    exact ih (fun x hx => h₁ x (by simp [hx]))

theorem firstInlineUrl_all_none (ps : List GenPart)
    (h : ∀ x ∈ ps, x.inlineData = none) : firstInlineUrl ps = "" := by
  induction ps with
  | nil => rfl
  | cons a as ih =>
    have ha : a.inlineData = none := h a (by simp)
    simp only [firstInlineUrl, ha]
    exact ih (fun x hx => h x (by simp [hx]))

theorem generateQuiz_generate_merge (word sentence d : String)
    (env : ServiceEnv) (ir tr : GenResponse) (c : GenCandidate)
    (cs : List GenCandidate) (ct : GenContent) (ps : List GenPart)
    (hd : ¬ d = "") (himg : env.imgResp = .ok ir) (htx : env.txtResp = .ok tr)
    (hc : ir.candidates = some (c :: cs)) (hct : c.content = some ct)
    (hps : ct.parts = some ps) :
    (generateQuiz word sentence (some d) Mode.generate env).2 =
      (if firstInlineUrl ps = "" then .error .imageFailed
       else .ok { imageUrl := firstInlineUrl ps
                  originalSentence := (parsedText tr).originalSentence
                  blankedSentence := (parsedText tr).blankedSentence
                  targetWord := word }) := by
  have hstage : imageStage word sentence (some d) Mode.generate =
      .ok (.request (.imageSketch (cleanBase64 d) (sketchToImagePrompt word sentence))) := by
    simp [imageStage, getTruthy, hd]
  have hext : extractImageUrl (.service ir) = .ok (firstInlineUrl ps) := by
    simp [extractImageUrl, hc, hct, hps]
  unfold generateQuiz
  rw [hstage]
  dsimp only
  unfold settleAndMerge settleImage
  dsimp only
  rw [himg]
  dsimp only [Except.map]
  rw [htx]
  dsimp only
  rw [hext]

/-- C5: in generate mode the merge step builds the image URL from the
first response part carrying inline data — earlier inline-free parts are
skipped and later inline parts are ignored — and when no part carries
inline data at all, `generateQuiz` throws the descriptive image-failure
error instead of returning a result. -/
theorem generate_first_inline_wins (word sentence d : String)
    (env : ServiceEnv) (ir tr : GenResponse) (c : GenCandidate)
    (cs : List GenCandidate) (ct : GenContent) (ps : List GenPart)
    (hd : ¬ d = "") (himg : env.imgResp = .ok ir) (htx : env.txtResp = .ok tr)
    (hc : ir.candidates = some (c :: cs)) (hct : c.content = some ct)
    (hps : ct.parts = some ps) :
    (∀ ps₁ p ps₂ dta, ps = ps₁ ++ p :: ps₂ →
      (∀ x ∈ ps₁, x.inlineData = none) → p.inlineData = some dta →
      ∃ q, (generateQuiz word sentence (some d) Mode.generate env).2 = .ok q ∧
        q.imageUrl = "data:image/png;base64," ++ dta) ∧
    ((∀ x ∈ ps, x.inlineData = none) →
      (generateQuiz word sentence (some d) Mode.generate env).2 =
        .error .imageFailed) := by
  have hmerge := generateQuiz_generate_merge word sentence d env ir tr c cs ct ps
    hd himg htx hc hct hps
  constructor
  · intro ps₁ p ps₂ dta hsplit h₁ hp
    have hurl : firstInlineUrl ps = "data:image/png;base64," ++ dta := by
      rw [hsplit]
      exact firstInlineUrl_first ps₁ p ps₂ dta h₁ hp
    rw [hurl] at hmerge
    rw [if_neg (dataUri_ne_empty dta)] at hmerge
    exact ⟨_, hmerge, rfl⟩
  · intro hnone
    have hurl : firstInlineUrl ps = "" := firstInlineUrl_all_none ps hnone
    rw [hurl] at hmerge
    rw [if_pos rfl] at hmerge
    exact hmerge

theorem generate_first_inline_wins_witness :
    (∃ q, (generateQuiz "w" "s" (some "d") Mode.generate
      ⟨.ok ⟨some [⟨some ⟨some [⟨none⟩, ⟨some "IMG"⟩, ⟨some "LATER"⟩]⟩⟩], none⟩,
       .ok ⟨none, some ⟨some "o", some "b"⟩⟩⟩).2 = .ok q ∧
      q.imageUrl = "data:image/png;base64," ++ "IMG") := by
  have h := generate_first_inline_wins "w" "s" "d"
    ⟨.ok ⟨some [⟨some ⟨some [⟨none⟩, ⟨some "IMG"⟩, ⟨some "LATER"⟩]⟩⟩], none⟩,
     .ok ⟨none, some ⟨some "o", some "b"⟩⟩⟩
    ⟨some [⟨some ⟨some [⟨none⟩, ⟨some "IMG"⟩, ⟨some "LATER"⟩]⟩⟩], none⟩
    ⟨none, some ⟨some "o", some "b"⟩⟩
    ⟨some ⟨some [⟨none⟩, ⟨some "IMG"⟩, ⟨some "LATER"⟩]⟩⟩ []
    ⟨some [⟨none⟩, ⟨some "IMG"⟩, ⟨some "LATER"⟩]⟩
    [⟨none⟩, ⟨some "IMG"⟩, ⟨some "LATER"⟩]
    (by decide) rfl rfl rfl rfl rfl
  exact h.1 [⟨none⟩] ⟨some "IMG"⟩ [⟨some "LATER"⟩] "IMG" rfl (by decide) rfl

/-- C10 counterexample: a service response with a present but empty
`candidates` array is truthy in JavaScript, so the extraction scan reads
`candidates[0].content` and raises a runtime `TypeError` — the call ends
in the type error, not in the descriptive image-failure error, refuting
totality of the scan over every response shape. -/
theorem extraction_total_cex :
    (generateQuiz "w" "s" (some "d") Mode.generate
      ⟨.ok ⟨some [], none⟩, .ok ⟨none, some ⟨some "o", some "b"⟩⟩⟩).2 =
      .error .typeError ∧
    (generateQuiz "w" "s" (some "d") Mode.generate
      ⟨.ok ⟨some [], none⟩, .ok ⟨none, some ⟨some "o", some "b"⟩⟩⟩).2 ≠
      .error .imageFailed := by
  constructor
  · rfl
  · intro h
    exact GQError.noConfusion (Except.error.inj h)

/-- C10 amended: the extraction scan is total except on JavaScript type
errors — a missing `candidates` field, a first candidate whose content has
no `parts`, or parts all lacking inline data leave the URL empty (and the
orchestrator then falls through to the image-failure error), while a
present-but-empty `candidates` array or a first candidate without
`content` raises a runtime `TypeError`. -/
theorem extraction_partial_totality (r : GenResponse) (c : GenCandidate)
    (cs : List GenCandidate) (ct : GenContent) (ps : List GenPart) :
    (r.candidates = none → extractImageUrl (.service r) = .ok "") ∧
    (r.candidates = some (c :: cs) → c.content = some ct → ct.parts = none →
      extractImageUrl (.service r) = .ok "") ∧
    (r.candidates = some (c :: cs) → c.content = some ct →
      ct.parts = some ps → (∀ x ∈ ps, x.inlineData = none) →
      extractImageUrl (.service r) = .ok "") ∧
    (r.candidates = some [] → extractImageUrl (.service r) = .error .typeError) ∧
    (r.candidates = some (c :: cs) → c.content = none →
      extractImageUrl (.service r) = .error .typeError) := by
  refine ⟨?_, ?_, ?_, ?_, ?_⟩
  · intro h
    simp [extractImageUrl, h]
  · intro h1 h2 h3
    simp [extractImageUrl, h1, h2, h3]
  · intro h1 h2 h3 h4
    simp [extractImageUrl, h1, h2, h3]
    exact firstInlineUrl_all_none ps h4
  · intro h
    simp [extractImageUrl, h]
  · intro h1 h2
    simp [extractImageUrl, h1, h2]

theorem extraction_partial_totality_witness :
    extractImageUrl (.service ⟨none, none⟩) = .ok "" ∧
    extractImageUrl (.service ⟨some [], none⟩) = .error .typeError :=
  ⟨(extraction_partial_totality ⟨none, none⟩ ⟨none⟩ [] ⟨none⟩ []).1 rfl,
   (extraction_partial_totality ⟨some [], none⟩ ⟨none⟩ [] ⟨none⟩ []).2.2.2.1 rfl⟩

/-- C9: the composited card's total height is always the scaled image
height plus the greedy-wrap line count times the fixed line height plus
twice the fixed padding; in particular a square source image (positive
side) with a blanked sentence that greedy-wraps to exactly three lines
yields height `cardWidth + 3 * lineHeight + 2 * padding`, the scaled
height of a square image being the card width itself. -/
theorem card_height_formula (measure : String → ℚ) (imgW imgH : ℚ)
    (blanked : String) (hsq : imgH = imgW) (hpos : 0 < imgW)
    (h3 : (wrapText measure blanked).length = 3) :
    (∀ (m2 : String → ℚ) (w2 h2 : ℚ) (b2 : String),
      cardTotalHeight m2 w2 h2 b2 =
        scaledImgHeight w2 h2 +
          ((wrapText m2 b2).length : ℚ) * cardLineHeight + 2 * cardPadding) ∧
    cardTotalHeight measure imgW imgH blanked =
      cardWidth + 3 * cardLineHeight + 2 * cardPadding := by
  have hgen : ∀ (m2 : String → ℚ) (w2 h2 : ℚ) (b2 : String),
      cardTotalHeight m2 w2 h2 b2 =
        scaledImgHeight w2 h2 +
          ((wrapText m2 b2).length : ℚ) * cardLineHeight + 2 * cardPadding := by
    intro m2 w2 h2 b2
    unfold cardTotalHeight
    ring
  refine ⟨hgen, ?_⟩
  rw [hgen measure imgW imgH blanked, h3]
  have hscaled : scaledImgHeight imgW imgH = cardWidth := by
    unfold scaledImgHeight
    rw [hsq]
    rw [if_pos hpos]
    rw [div_self (ne_of_gt hpos)]
    ring
  rw [hscaled]
  norm_num

theorem card_height_formula_witness :
    cardTotalHeight (fun _ => 2000) 1 1 "a a a" =
      cardWidth + 3 * cardLineHeight + 2 * cardPadding := by
  have hsplit : jsSplitSpace "a a a" = ["a", "a", "a"] := by decide
  have h3 : (wrapText (fun _ => 2000) "a a a").length = 3 := by
    have hcond : textMaxWidth < (2000 : ℚ) := by
      norm_num [textMaxWidth, cardWidth, cardPadding]
    unfold wrapText
    rw [hsplit]
    simp [wrapAux, hcond]
  exact (card_height_formula (fun _ => 2000) 1 1 "a a a" rfl (by norm_num) h3).2
